import Mathlib

set_option maxHeartbeats 1000000

namespace StockRec

/-! Shallow embedding of the stock-recommender repository.

The frontend TypeScript under `src/` is embedded directly (dashboard signal
merge, portfolio GET route, stock chart price display). The Python signal /
exit-decision engine described by the repository READMEs is not among the
staged source files, so those components are modelled from the spec; every
such definition carries a doc comment starting `Modelled from the spec:`. -/

/-! ## Frontend: dashboard signal merge (`handleSignalUpdate`) -/

/-- The `Signal` interface of the dashboard page: `{ ticker, signal, score,
price?, reason }`. -/
structure Signal where
  ticker : String
  signal : String
  score : ℚ
  price : Option ℚ
  reason : String
deriving DecidableEq

/-- Replace the first element whose ticker equals `n.ticker` by `n`, keeping
every other entry in place.  This is `updated[existing] = newSignal` where
`existing` is the first matching index found by `findIndex`. -/
def replaceFirst : List Signal → Signal → List Signal
  | [], _ => []
  | s :: rest, n =>
      if s.ticker == n.ticker then n :: rest else s :: replaceFirst rest n

/-- `handleSignalUpdate` of the dashboard page: `findIndex` on the ticker;
if found (`existing >= 0`) the entry at that index is overwritten in a copy
of the array, otherwise the new signal is prepended
(`[newSignal, ...prev]`). -/
def handleSignalUpdate (prev : List Signal) (n : Signal) : List Signal :=
  if prev.any (fun s => s.ticker == n.ticker) then replaceFirst prev n
  else n :: prev

/-! ## Frontend: portfolio GET route -/

/-- A `Portfolio` row as selected by the route (`prisma.portfolio.findMany`);
only the fields the access-control claim concerns. -/
structure Portfolio where
  id : String
  name : String
  userId : String
deriving DecidableEq

/-- The `GET` handler of the portfolio API route: with no authenticated
session user id it answers 401 and returns no data; otherwise it returns
exactly the portfolios whose `userId` equals the session user's id
(`findMany({ where: { userId: session.user.id } })`). -/
def portfolioGET (sessionUserId : Option String) (db : List Portfolio) :
    Except Nat (List Portfolio) :=
  match sessionUserId with
  | none => .error 401
  | some uid => .ok (db.filter (fun p => p.userId == uid))

/-! ## Frontend: stock chart current price -/

/-- One entry of the chart data series: `{ date, price, volume }`. -/
structure ChartData where
  date : String
  price : ℚ
  volume : ℚ
deriving DecidableEq

/-- `StockChart`'s displayed current price:
`data[data.length - 1]?.price || 0` — the last sample's price, with `0`
substituted when the series is empty (as it is when the fetch failed and
`setData` was never called).  The JS `|| 0` also maps an actual price of `0`
to `0`, which is the same value, so the embedding is extensionally exact. -/
def chartCurrentPrice (data : List ChartData) : ℚ :=
  match data.getLast? with
  | some d => d.price
  | none => 0

/-- The market-data failure taxonomy relevant to the provider interface. -/
inductive MarketDataError
  | dataUnavailable
deriving DecidableEq

/-- Modelled from the spec: the market-data provider (`getQuote(ticker) ->
price`) is not among the staged sources; per the spec its failures are
surfaced as a typed error, never silently treated as price = 0.  The fetch
outcome is abstracted as `Option ℚ`. -/
def getQuote (fetched : Option ℚ) : Except MarketDataError ℚ :=
  match fetched with
  | none => .error .dataUnavailable
  | some p => .ok p

/-! ## Frontend: dashboard analyze/merge and presentation order -/

/-- The dashboard's `StockData` interface. -/
structure StockData where
  ticker : String
  signal : String
  score : ℚ
  price : ℚ
  reason : String
  change : ℚ
  changePercent : ℚ
deriving DecidableEq

/-- The state update of `analyzeStock`:
`setStocks(prev => [data, ...prev.filter(s => s.ticker !== data.ticker)])` —
the fetched signal is prepended and any previous entry with the same ticker
is dropped; no sorting is applied. -/
def analyzeStockMerge (prev : List StockData) (data : StockData) :
    List StockData :=
  data :: prev.filter (fun s => !(s.ticker == data.ticker))

/-- The mock data the dashboard loads and presents on first render
(`fetchStockData`), in the order of the source. -/
def mockStocks : List StockData :=
  [⟨"AAPL", "BUY", 0.85, 175.43, "Strong technical indicators", 2.34, 1.35⟩,
   ⟨"MSFT", "HOLD", 0.72, 378.85, "Consolidating near resistance", -1.23, -0.32⟩,
   ⟨"GOOGL", "BUY", 0.78, 142.56, "Bullish momentum building", 3.45, 2.48⟩,
   ⟨"TSLA", "SELL", 0.45, 248.42, "Bearish divergence detected", -5.67, -2.23⟩]

/-- The spec's classification priority for presentation: SELL before BUY
before HOLD. -/
def classPriority : String → Nat
  | "SELL" => 0
  | "BUY" => 1
  | _ => 2

/-- The spec's presentation order between adjacent entries: classification
priority first, then confidence descending, ties broken by ticker name.
This definition follows the spec's words, to be compared with the order the
dashboard code actually presents. -/
def specOrderLE (a b : StockData) : Bool :=
  decide (classPriority a.signal < classPriority b.signal) ||
    ((classPriority a.signal == classPriority b.signal) &&
      (decide (b.score < a.score) ||
        ((a.score == b.score) && decide (a.ticker ≤ b.ticker))))

/-- Whether a presented list is sorted by the spec's presentation order. -/
def sortedByPriority : List StockData → Bool
  | [] => true
  | [_] => true
  | a :: b :: rest => specOrderLE a b && sortedByPriority (b :: rest)

/-! ## Engine: exit state machine and notification dispatch (spec-modelled) -/

/-- Modelled from the spec: the per-position states of the
ExitDecisionEngine (`OPEN` monitoring, `TRIGGERED` SELL_NOW pending,
`CLOSED` terminal).  The engine's Python sources are not among the staged
files. -/
inductive PosState
  | OPEN
  | TRIGGERED
  | CLOSED
deriving DecidableEq, Fintype

/-- Modelled from the spec: what one evaluation tick observes, abstracted to
what drives the transitions — the exit conditions hold, the conditions have
cleared (favorable price recovered past the trigger threshold), or the
position is removed / its expiry has passed. -/
inductive TickCond
  | conditionsHold
  | conditionsClear
  | closePosition
deriving DecidableEq, Fintype

/-- Modelled from the spec: the transition relation of §4.4 —
`OPEN → TRIGGERED` when a rule fires, `TRIGGERED → OPEN` when conditions no
longer hold, `OPEN|TRIGGERED → CLOSED` on removal/expiry, `CLOSED`
terminal. -/
def stepState : PosState → TickCond → PosState
  | .CLOSED, _ => .CLOSED
  | _, .closePosition => .CLOSED
  | .OPEN, .conditionsHold => .TRIGGERED
  | .OPEN, .conditionsClear => .OPEN
  | .TRIGGERED, .conditionsHold => .TRIGGERED
  | .TRIGGERED, .conditionsClear => .OPEN

/-- Modelled from the spec: the NotificationDispatcher fires exactly at the
`OPEN → TRIGGERED` (HOLD → SELL_NOW) transition; repeated `TRIGGERED` ticks
do not re-notify. -/
def notifies (s : PosState) (c : TickCond) : Bool :=
  (s == PosState.OPEN) && (stepState s c == PosState.TRIGGERED)

/-- The state after each tick of a run, in order. -/
def statesAfter (s : PosState) : List TickCond → List PosState
  | [] => []
  | c :: cs => stepState s c :: statesAfter (stepState s c) cs

/-- The number of NotificationEvents dispatched across a run of ticks. -/
def notifCount (s : PosState) : List TickCond → Nat
  | [] => 0
  | c :: cs => (if notifies s c then 1 else 0) + notifCount (stepState s c) cs

/-! ## Engine: peak tracking (spec-modelled) -/

/-- The position's instrument type (`type` of a position record). -/
inductive InstrumentType
  | LONG_PUT
  | LONG_CALL
  | SHARE
deriving DecidableEq

/-- Modelled from the spec: the peak update of the ExitDecisionEngine —
the first observation seeds `previousPeak`; afterwards the peak moves only
when the current price improves on it in the favorable direction (down for a
long put, up for a long call or share). -/
def updatePeak (t : InstrumentType) (previousPeak : Option ℚ) (price : ℚ) :
    Option ℚ :=
  match previousPeak with
  | none => some price
  | some pk =>
      match t with
      | .LONG_PUT => if price < pk then some price else some pk
      | _ => if pk < price then some price else some pk

/-! ## Engine: IndicatorEngine (spec-modelled) -/

/-- The indicator snapshot of the spec's data model. -/
structure IndicatorSnapshot where
  rsi14 : ℚ
  smaShort : ℚ
  smaLong : ℚ
  macd : ℚ
  macdSignal : ℚ
deriving DecidableEq

/-- The IndicatorEngine's failure. -/
inductive IndicatorError
  | insufficientData
deriving DecidableEq

/-- The engine's window configuration (RSI lookback, short/long simple
moving averages, MACD fast/slow/signal), 14 / 20 / 50 / 12 / 26 / 9 by
convention, configurable. -/
structure IndicatorConfig where
  rsiW : Nat
  shortW : Nat
  longW : Nat
  fastW : Nat
  slowW : Nat
  signalW : Nat
deriving DecidableEq

/-- Simple arithmetic mean of the last `n` samples. -/
def smaLast (n : Nat) (ps : List ℚ) : ℚ :=
  (ps.drop (ps.length - n)).sum / (n : ℚ)

/-- Successive price differences (next minus current). -/
def priceDiffs (ps : List ℚ) : List ℚ :=
  List.zipWith (fun nxt cur => nxt - cur) ps.tail ps

/-- Wilder smoothing with lookback `n`: each new sample enters with weight
`1/n`, the running average keeps weight `(n-1)/n`. -/
def wilderSmooth (n : Nat) (xs : List ℚ) : ℚ :=
  xs.foldl (fun acc x => (acc * ((n : ℚ) - 1) + x) / (n : ℚ)) 0

/-- Modelled from the spec: RSI with a fixed lookback and Wilder smoothing
over average gains/losses; 100 when there are no losses. -/
def rsiWilder (n : Nat) (ps : List ℚ) : ℚ :=
  let ds := priceDiffs ps
  let avgGain := wilderSmooth n (ds.map (fun d => max d 0))
  let avgLoss := wilderSmooth n (ds.map (fun d => max (-d) 0))
  if avgLoss = 0 then 100 else 100 - 100 / (1 + avgGain / avgLoss)

/-- The exponential-average smoothing factor for an `n`-period EMA. -/
def emaK (n : Nat) : ℚ := 2 / ((n : ℚ) + 1)

/-- Running exponential average seeded at `prev`. -/
def emaFrom (k prev : ℚ) : List ℚ → List ℚ
  | [] => [prev]
  | x :: xs => prev :: emaFrom k (k * x + (1 - k) * prev) xs

/-- The EMA series of a price series (seeded at the first sample). -/
def emaList (k : ℚ) : List ℚ → List ℚ
  | [] => []
  | x :: xs => emaFrom k x xs

/-- The MACD line: fast EMA minus slow EMA, pointwise over the series. -/
def macdLine (fast slow : Nat) (ps : List ℚ) : List ℚ :=
  List.zipWith (fun a b => a - b) (emaList (emaK fast) ps)
    (emaList (emaK slow) ps)

/-- Modelled from the spec: the IndicatorEngine — fails with
`InsufficientDataError` when the series is shorter than the slowest
indicator's window (the long moving-average window), otherwise returns a
full snapshot computed purely from the series. -/
def computeIndicators (cfg : IndicatorConfig) (ps : List ℚ) :
    Except IndicatorError IndicatorSnapshot :=
  if ps.length < cfg.longW then .error .insufficientData
  else
    let m := macdLine cfg.fastW cfg.slowW ps
    .ok { rsi14 := rsiWilder cfg.rsiW ps
          smaShort := smaLast cfg.shortW ps
          smaLong := smaLast cfg.longW ps
          macd := m.getLast?.getD 0
          macdSignal := (emaList (emaK cfg.signalW) m).getLast?.getD 0 }

/-! ## Engine: PositionRegistry (spec-modelled) -/

/-- A calendar date of a position record; validity is a schema concern. -/
structure RawDate where
  y : Nat
  m : Nat
  d : Nat
deriving DecidableEq

/-- A date is schema-valid when month and day are in range. -/
def validDate (dt : RawDate) : Bool :=
  decide (1 ≤ dt.m) && decide (dt.m ≤ 12) && decide (1 ≤ dt.d) &&
    decide (dt.d ≤ 31)

/-- Whether the instrument type is an option type (strike required). -/
def isOptionType : InstrumentType → Bool
  | .LONG_PUT => true
  | .LONG_CALL => true
  | .SHARE => false

/-- An unvalidated position record of the declarative configuration source
(`ticker, type, expiry, strike, entryPrice, entryDate, quantity,
previousPeak`). -/
structure RawRecord where
  ticker : Option String
  itype : InstrumentType
  expiry : Option RawDate
  strike : Option ℚ
  entryPrice : ℚ
  entryDate : RawDate
  quantity : ℚ
  previousPeak : Option ℚ
deriving DecidableEq

/-- A validated monitored position. -/
structure Position where
  ticker : String
  itype : InstrumentType
  expiry : Option RawDate
  strike : Option ℚ
  entryPrice : ℚ
  entryDate : RawDate
  quantity : ℚ
  previousPeak : Option ℚ
deriving DecidableEq

/-- The registry's load failure on a schema violation. -/
inductive ConfigError
  | missingTicker
  | missingStrike
  | invalidDate
deriving DecidableEq

/-- An absent expiry is allowed; a present one must be a valid date. -/
def validExpiry : Option RawDate → Bool
  | none => true
  | some dt => validDate dt

/-- Modelled from the spec: validation of one record — missing ticker,
strike required for option types, invalid date are the schema
violations. -/
def parseRecord (r : RawRecord) : Except ConfigError Position :=
  match r.ticker with
  | none => .error .missingTicker
  | some tk =>
      if isOptionType r.itype && r.strike.isNone then .error .missingStrike
      else if !(validDate r.entryDate && validExpiry r.expiry) then
        .error .invalidDate
      else
        .ok { ticker := tk, itype := r.itype, expiry := r.expiry,
              strike := r.strike, entryPrice := r.entryPrice,
              entryDate := r.entryDate, quantity := r.quantity,
              previousPeak := r.previousPeak }

/-- Modelled from the spec: `load(source)` parses the declarative list of
records, failing with `ConfigError` on the first schema violation. -/
def load : List RawRecord → Except ConfigError (List Position)
  | [] => .ok []
  | r :: rs =>
      match parseRecord r with
      | .error e => .error e
      | .ok p =>
          match load rs with
          | .error e => .error e
          | .ok ps => .ok (p :: ps)

/-- Modelled from the spec: a failing load aborts and leaves the registry's
in-memory set unchanged; only a fully successful parse replaces it. -/
def loadRegistry (registry : List Position) (source : List RawRecord) :
    List Position × Option ConfigError :=
  match load source with
  | .ok ps => (ps, none)
  | .error e => (registry, some e)

/-- The schema violations of the spec, as a predicate on raw records. -/
def schemaViolating (r : RawRecord) : Bool :=
  r.ticker.isNone || (isOptionType r.itype && r.strike.isNone) ||
    !(validDate r.entryDate && validExpiry r.expiry)

/-! ## Engine: SignalScorer (spec-modelled) -/

/-- The signal classification. -/
inductive Classification
  | BUY
  | SELL
  | HOLD
deriving DecidableEq

/-- The scorer's output: classification, confidence in [0,1], and the reason
of the rule that fired. -/
structure ScoredSignal where
  classification : Classification
  confidence : ℚ
  reason : String
deriving DecidableEq

/-- The scorer's risk filters: minimum price and minimum dollar volume. -/
structure ScorerConfig where
  minPrice : ℚ
  minDollarVolume : ℚ
deriving DecidableEq

/-- The scorer's input: current price and dollar volume, the current and
previous indicator snapshots (to detect crossovers), and the detected
trend direction (short MA rising/falling over the last N samples,
abstracted as booleans). -/
structure ScorerInput where
  price : ℚ
  dollarVolume : ℚ
  prevSnap : IndicatorSnapshot
  curSnap : IndicatorSnapshot
  uptrend : Bool
  downtrend : Bool
deriving DecidableEq

/-- Rule 1's condition: price or dollar volume below the filter floor. -/
def filteredOut (cfg : ScorerConfig) (i : ScorerInput) : Bool :=
  decide (i.price < cfg.minPrice) ||
    decide (i.dollarVolume < cfg.minDollarVolume)

/-- Short MA crosses above long MA this tick (was ≤, now >). -/
def smaCrossAbove (i : ScorerInput) : Bool :=
  decide (i.prevSnap.smaShort ≤ i.prevSnap.smaLong) &&
    decide (i.curSnap.smaLong < i.curSnap.smaShort)

/-- Short MA crosses below long MA this tick (was ≥, now <). -/
def smaCrossBelow (i : ScorerInput) : Bool :=
  decide (i.prevSnap.smaLong ≤ i.prevSnap.smaShort) &&
    decide (i.curSnap.smaShort < i.curSnap.smaLong)

/-- MACD crosses above its signal line this tick. -/
def macdCrossAbove (i : ScorerInput) : Bool :=
  decide (i.prevSnap.macd ≤ i.prevSnap.macdSignal) &&
    decide (i.curSnap.macdSignal < i.curSnap.macd)

/-- MACD crosses below its signal line this tick. -/
def macdCrossBelow (i : ScorerInput) : Bool :=
  decide (i.prevSnap.macdSignal ≤ i.prevSnap.macd) &&
    decide (i.curSnap.macd < i.curSnap.macdSignal)

/-- Modelled from the spec: the confidence is monotone in the RSI's distance
from the neutral midpoint 50 and saturates at 1. -/
def confidenceOf (i : ScorerInput) : ℚ :=
  min 1 (|i.curSnap.rsi14 - 50| / 50)

/-- Modelled from the spec: the SignalScorer's fixed rule chain, evaluated
in the listed order, first match wins. -/
def scoreSignal (cfg : ScorerConfig) (i : ScorerInput) : ScoredSignal :=
  if filteredOut cfg i then ⟨.HOLD, 0, "filtered"⟩
  else if smaCrossAbove i && decide (i.curSnap.rsi14 < 70) then
    ⟨.BUY, confidenceOf i, "crossover"⟩
  else if smaCrossBelow i && decide (30 < i.curSnap.rsi14) then
    ⟨.SELL, confidenceOf i, "crossover"⟩
  else if decide (i.curSnap.rsi14 < 30) && i.uptrend then
    ⟨.BUY, confidenceOf i, "rsi-oversold"⟩
  else if decide (70 < i.curSnap.rsi14) && i.downtrend then
    ⟨.SELL, confidenceOf i, "rsi-overbought"⟩
  else if macdCrossAbove i then ⟨.BUY, confidenceOf i, "macd-cross"⟩
  else if macdCrossBelow i then ⟨.SELL, confidenceOf i, "macd-cross"⟩
  else ⟨.HOLD, confidenceOf i, "neutral"⟩

/-- The spec's rule list, in its fixed order: each entry is the rule's
condition and the classification/reason it yields. -/
def ruleTable (cfg : ScorerConfig) (i : ScorerInput) :
    List (Bool × Classification × String) :=
  [(filteredOut cfg i, Classification.HOLD, "filtered"),
   (smaCrossAbove i && decide (i.curSnap.rsi14 < 70),
     Classification.BUY, "crossover"),
   (smaCrossBelow i && decide (30 < i.curSnap.rsi14),
     Classification.SELL, "crossover"),
   (decide (i.curSnap.rsi14 < 30) && i.uptrend,
     Classification.BUY, "rsi-oversold"),
   (decide (70 < i.curSnap.rsi14) && i.downtrend,
     Classification.SELL, "rsi-overbought"),
   (macdCrossAbove i, Classification.BUY, "macd-cross"),
   (macdCrossBelow i, Classification.SELL, "macd-cross")]

/-- First-match-wins selection over an ordered rule list. -/
def firstMatch (dflt : Classification × String) :
    List (Bool × Classification × String) → Classification × String
  | [] => dflt
  | (b, c, r) :: rest => if b then (c, r) else firstMatch dflt rest

/-! ## Engine: ExitDecisionEngine tick (spec-modelled) -/

/-- The per-tick exit decision. -/
inductive Decision
  | HOLD
  | SELL_NOW
deriving DecidableEq

/-- The exit thresholds: stop-loss and trailing percentages, the
profit margin of the expiry rule, the minimum adverse-signal confidence,
and the days-to-expiry threshold. -/
structure ExitConfig where
  stopLossPct : ℚ
  trailingPct : ℚ
  profitMarginPct : ℚ
  minConfidence : ℚ
  expiryThreshold : Nat
deriving DecidableEq

/-- A position together with its running exit state (peak and last
decision). -/
structure PosExitState where
  itype : InstrumentType
  entryPrice : ℚ
  previousPeak : Option ℚ
  lastDecision : Decision
deriving DecidableEq

/-- One tick's inputs for a position: the current quote, days to expiry for
option positions, and the scored market signal. -/
structure ExitInput where
  price : ℚ
  daysToExpiry : Option Nat
  sig : ScoredSignal
deriving DecidableEq

/-- The underlying has moved against the entry by more than `pct` of the
entry price (adverse direction depends on the instrument type: up for a
long put, down for a long call or share). -/
def movedAgainst (t : InstrumentType) (entry price pct : ℚ) : Bool :=
  match t with
  | .LONG_PUT => decide (entry * (1 + pct) < price)
  | _ => decide (price < entry * (1 - pct))

/-- The price has retraced from the peak by more than `pct` in the adverse
direction. -/
def retracedFromPeak (t : InstrumentType) (pk price pct : ℚ) : Bool :=
  match t with
  | .LONG_PUT => decide (pk * (1 + pct) < price)
  | _ => decide (price < pk * (1 - pct))

/-- The position is profitable beyond the configured margin (underlying
beyond entry in the favorable direction). -/
def profitableBeyond (t : InstrumentType) (entry price margin : ℚ) : Bool :=
  match t with
  | .LONG_PUT => decide (price < entry * (1 - margin))
  | _ => decide (entry * (1 + margin) < price)

/-- Rule a, stop-loss. -/
def stopLossFires (cfg : ExitConfig) (p : PosExitState) (i : ExitInput) :
    Bool :=
  movedAgainst p.itype p.entryPrice i.price cfg.stopLossPct

/-- Rule b, trailing stop from the peak — only once a peak exists. -/
def trailingFires (cfg : ExitConfig) (p : PosExitState) (i : ExitInput) :
    Bool :=
  match p.previousPeak with
  | none => false
  | some pk => retracedFromPeak p.itype pk i.price cfg.trailingPct

/-- Rule c, expiry proximity for option positions not already profitable
beyond the margin. -/
def expiryFires (cfg : ExitConfig) (p : PosExitState) (i : ExitInput) :
    Bool :=
  match i.daysToExpiry with
  | none => false
  | some days =>
      decide (days < cfg.expiryThreshold) &&
        !profitableBeyond p.itype p.entryPrice i.price cfg.profitMarginPct

/-- Rule d, adverse signal with confidence above the minimum. -/
def adverseFires (cfg : ExitConfig) (_p : PosExitState) (i : ExitInput) :
    Bool :=
  (i.sig.classification == Classification.SELL) &&
    decide (cfg.minConfidence < i.sig.confidence)

/-- Modelled from the spec: the exit rules evaluated in the fixed order
a–d; the reason records the first rule that fired, `none` when none did. -/
def firedReason (cfg : ExitConfig) (p : PosExitState) (i : ExitInput) :
    Option String :=
  if stopLossFires cfg p i then some "stop-loss"
  else if trailingFires cfg p i then some "trailing-stop"
  else if expiryFires cfg p i then some "expiry"
  else if adverseFires cfg p i then some "adverse signal"
  else none

/-- Modelled from the spec: one evaluation tick of the ExitDecisionEngine —
a fired rule yields SELL_NOW; otherwise the decision is HOLD and the peak is
updated when the price improves on it. -/
def tick (cfg : ExitConfig) (p : PosExitState) (i : ExitInput) :
    PosExitState × Decision :=
  match firedReason cfg p i with
  | some _ => ({ p with lastDecision := .SELL_NOW }, .SELL_NOW)
  | none =>
      ({ p with previousPeak := updatePeak p.itype p.previousPeak i.price,
                lastDecision := .HOLD }, .HOLD)

/-! ## Theorems -/

/-- C1: a notification is dispatched only on the HOLD→SELL_NOW
(OPEN→TRIGGERED) transition, and a position that stays TRIGGERED for five
consecutive ticks without returning to OPEN dispatches exactly one
NotificationEvent across the five ticks. -/
theorem notify_once_invariant (c1 c2 c3 c4 c5 : TickCond)
    (h : statesAfter PosState.OPEN [c1, c2, c3, c4, c5] =
      [PosState.TRIGGERED, PosState.TRIGGERED, PosState.TRIGGERED,
       PosState.TRIGGERED, PosState.TRIGGERED]) :
    notifCount PosState.OPEN [c1, c2, c3, c4, c5] = 1 ∧
      ∀ (s : PosState) (c : TickCond), notifies s c = true →
        s = PosState.OPEN ∧ stepState s c = PosState.TRIGGERED := by
  revert c1 c2 c3 c4 c5
  decide

/-- Witness for C1: five consecutive ticks whose conditions keep holding
keep the position TRIGGERED and dispatch exactly one notification. -/
theorem notify_once_invariant_witness :
    notifCount PosState.OPEN
      [TickCond.conditionsHold, TickCond.conditionsHold,
       TickCond.conditionsHold, TickCond.conditionsHold,
       TickCond.conditionsHold] = 1 :=
  (notify_once_invariant TickCond.conditionsHold TickCond.conditionsHold
    TickCond.conditionsHold TickCond.conditionsHold TickCond.conditionsHold
    (by decide)).1

/-- C2: once `previousPeak` is non-null, every peak update moves it only in
the favorable direction — it never increases for a LONG_PUT and never
decreases for a LONG_CALL or SHARE. -/
theorem peak_monotone_favorable (t : InstrumentType) (pk price pk' : ℚ)
    (h : updatePeak t (some pk) price = some pk') :
    (t = InstrumentType.LONG_PUT → pk' ≤ pk) ∧
      (t ≠ InstrumentType.LONG_PUT → pk ≤ pk') := by
  cases t <;> simp only [updatePeak] at h <;> split at h <;>
    simp_all <;> linarith

/-- Witness for C2: a long put at peak 10 seeing price 8 moves the peak
down to 8, never up. -/
theorem peak_monotone_favorable_witness :
    updatePeak InstrumentType.LONG_PUT (some 10) 8 = some 8 ∧ (8 : ℚ) ≤ 10 :=
  ⟨by decide,
   (peak_monotone_favorable InstrumentType.LONG_PUT 10 8 8 (by decide)).1 rfl⟩

/-- C3 counterexample: the StockChart component substitutes 0 for the
displayed current price when the price series could not be fetched (the
data list is empty), so the claim's "no code path substitutes the value 0"
is false on the code. -/
theorem chart_price_zero_counterexample : chartCurrentPrice [] = 0 := rfl

/-- C3 amended: the market-data provider interface surfaces a fetch failure
as a typed error and never yields price 0 for it (spec-modelled `getQuote`);
however the frontend StockChart displays 0 as the current price when the
fetched series is empty. -/
theorem market_data_typed_error_amended :
    getQuote none = Except.error MarketDataError.dataUnavailable ∧
      (∀ q : ℚ, getQuote (some q) = Except.ok q) ∧
      chartCurrentPrice [] = 0 :=
  ⟨rfl, fun _ => rfl, rfl⟩

/-- C4: for every price series shorter than the long moving-average window
the IndicatorEngine fails with `InsufficientDataError` and returns no
snapshot; for every series at least that long it returns a snapshot. -/
theorem indicator_engine_length_gate (cfg : IndicatorConfig) (ps : List ℚ) :
    (ps.length < cfg.longW →
      computeIndicators cfg ps = Except.error IndicatorError.insufficientData) ∧
      (cfg.longW ≤ ps.length → ∃ snap, computeIndicators cfg ps = Except.ok snap) := by
  constructor
  · intro h
    simp [computeIndicators, h]
  · intro h
    simp only [computeIndicators, if_neg (Nat.not_lt.mpr h)]
    exact ⟨_, rfl⟩

/-- Witness for C4: with a long window of 3, a 2-sample series fails with
`InsufficientDataError` and a 3-sample series yields a snapshot. -/
theorem indicator_engine_length_gate_witness :
    computeIndicators ⟨2, 2, 3, 2, 3, 2⟩ [1, 2] =
        Except.error IndicatorError.insufficientData ∧
      ∃ snap, computeIndicators ⟨2, 2, 3, 2, 3, 2⟩ [1, 2, 3] = Except.ok snap :=
  ⟨(indicator_engine_length_gate ⟨2, 2, 3, 2, 3, 2⟩ [1, 2]).1 (by decide),
   (indicator_engine_length_gate ⟨2, 2, 3, 2, 3, 2⟩ [1, 2, 3]).2 (by decide)⟩

/-- C10: the portfolio GET endpoint answers 401 with no data when there is
no authenticated session user id; otherwise every returned portfolio
belongs to the session user, so two different authenticated users never
receive each other's portfolios. -/
theorem portfolio_get_isolation (db : List Portfolio) (u1 u2 : String)
    (ps1 ps2 : List Portfolio)
    (h1 : portfolioGET (some u1) db = Except.ok ps1)
    (h2 : portfolioGET (some u2) db = Except.ok ps2)
    (hne : u1 ≠ u2) :
    portfolioGET none db = Except.error 401 ∧
      (∀ p ∈ ps1, p.userId = u1) ∧ (∀ p ∈ ps1, p ∉ ps2) := by
  have e1 : ps1 = db.filter (fun p => p.userId == u1) := by
    simpa [portfolioGET] using h1.symm
  have e2 : ps2 = db.filter (fun p => p.userId == u2) := by
    simpa [portfolioGET] using h2.symm
  subst e1 e2
  refine ⟨rfl, ?_, ?_⟩
  · intro p hp
    simpa using (List.mem_filter.mp hp).2
  · intro p hp hp2
    have hu1 : p.userId = u1 := by simpa using (List.mem_filter.mp hp).2
    have hu2 : p.userId = u2 := by simpa using (List.mem_filter.mp hp2).2
    exact hne (hu1 ▸ hu2)

/-- Witness for C10: with two portfolios owned by alice and bob, alice's
request returns only her portfolio, bob's only his, and an unauthenticated
request gets 401. -/
theorem portfolio_get_isolation_witness :
    portfolioGET none
        [⟨"p1", "A", "alice"⟩, ⟨"p2", "B", "bob"⟩] = Except.error 401 ∧
      (∀ p ∈ [(⟨"p1", "A", "alice"⟩ : Portfolio)], p.userId = "alice") ∧
      (∀ p ∈ [(⟨"p1", "A", "alice"⟩ : Portfolio)],
        p ∉ [(⟨"p2", "B", "bob"⟩ : Portfolio)]) :=
  portfolio_get_isolation [⟨"p1", "A", "alice"⟩, ⟨"p2", "B", "bob"⟩]
    "alice" "bob" [⟨"p1", "A", "alice"⟩] [⟨"p2", "B", "bob"⟩]
    rfl rfl (by decide)

/-- A schema-violating record makes `parseRecord` fail with a
`ConfigError`. -/
theorem parseRecord_error_of_violating (r : RawRecord)
    (h : schemaViolating r = true) : ∃ e, parseRecord r = Except.error e := by
  cases ht : r.ticker with
  | none => exact ⟨ConfigError.missingTicker, by simp [parseRecord, ht]⟩
  | some tk =>
      simp only [schemaViolating, ht, Option.isNone_some, Bool.false_or,
        Bool.or_eq_true] at h
      by_cases h1 : (isOptionType r.itype && r.strike.isNone) = true
      · exact ⟨ConfigError.missingStrike, by simp [parseRecord, ht, h1]⟩
      · have h2 : (!(validDate r.entryDate && validExpiry r.expiry)) = true := by
          rcases h with h | h
          · exact absurd h h1
          · exact h
        exact ⟨ConfigError.invalidDate, by simp [parseRecord, ht, h1, h2]⟩

/-- A source with a schema-violating record makes `load` fail. -/
theorem load_error_of_violating (source : List RawRecord)
    (h : ∃ r ∈ source, schemaViolating r = true) :
    ∃ e, load source = Except.error e := by
  induction source with
  | nil => simp at h
  | cons r rs ih =>
      rcases h with ⟨r0, hmem, hv⟩
      rcases List.mem_cons.mp hmem with rfl | hmem'
      · obtain ⟨e, he⟩ := parseRecord_error_of_violating r0 hv
        exact ⟨e, by simp [load, he]⟩
      · cases hp : parseRecord r with
        | error e => exact ⟨e, by simp [load, hp]⟩
        | ok p =>
            obtain ⟨e, he⟩ := ih ⟨r0, hmem', hv⟩
            exact ⟨e, by simp [load, hp, he]⟩

/-- C5: a configuration source containing a schema-violating record makes
`load` fail with a `ConfigError` and leaves the registry state unchanged;
in particular a previously empty registry stays empty rather than being
partially populated. -/
theorem registry_load_atomic (registry : List Position)
    (source : List RawRecord)
    (h : ∃ r ∈ source, schemaViolating r = true) :
    (∃ e, load source = Except.error e) ∧
      (loadRegistry registry source).1 = registry := by
  obtain ⟨e, he⟩ := load_error_of_violating source h
  exact ⟨⟨e, he⟩, by simp [loadRegistry, he]⟩

/-- The NVDA record of the README, with its required strike removed: a
schema violation for an option type. -/
def badRecord : RawRecord :=
  { ticker := some "NVDA", itype := InstrumentType.LONG_PUT,
    expiry := some ⟨2025, 9, 19⟩, strike := none, entryPrice := 16.05,
    entryDate := ⟨2025, 8, 12⟩, quantity := 1, previousPeak := none }

/-- Witness for C5: loading a single option record with no strike into an
empty registry fails and the registry remains empty. -/
theorem registry_load_atomic_witness :
    (∃ e, load [badRecord] = Except.error e) ∧
      (loadRegistry [] [badRecord]).1 = [] :=
  registry_load_atomic [] [badRecord]
    ⟨badRecord, List.mem_cons_self badRecord [], by decide⟩

/-- C6: the SignalScorer evaluates its seven rules in the fixed listed
order and returns the classification and reason of the first rule that
matches; in particular, when the short MA crosses above the long MA in the
tick where RSI rises from 25 to 35, the result is BUY with the crossover
reason, not the RSI-oversold reason. -/
theorem scorer_first_match_precedence (cfg : ScorerConfig) (i : ScorerInput) :
    ((scoreSignal cfg i).classification, (scoreSignal cfg i).reason) =
        firstMatch (Classification.HOLD, "neutral") (ruleTable cfg i) ∧
      scoreSignal ⟨5, 100000⟩
          ⟨100, 1000000, ⟨25, 10, 11, 0, 0⟩, ⟨35, 12, 11, 0, 0⟩, true, false⟩ =
        ⟨Classification.BUY, 3 / 10, "crossover"⟩ := by
  constructor
  · simp only [scoreSignal, ruleTable, firstMatch]
    split_ifs <;> rfl
  · norm_num [scoreSignal, filteredOut, smaCrossAbove, smaCrossBelow,
      macdCrossAbove, macdCrossBelow, confidenceOf, abs]

/-- Updating the peak twice with the same price is the same as updating it
once. -/
theorem updatePeak_idem (t : InstrumentType) (pk : Option ℚ) (price : ℚ) :
    updatePeak t (updatePeak t pk price) price = updatePeak t pk price := by
  cases pk with
  | none => cases t <;> simp [updatePeak]
  | some v =>
      cases t <;> simp only [updatePeak] <;> split_ifs <;> simp_all

/-- C8: two consecutive ticks with identical inputs and no state-changing
event (no exit rule fires on either tick) produce the identical ExitState
and decision; the first such tick already decides HOLD. -/
theorem tick_idempotent_no_event (cfg : ExitConfig) (p : PosExitState)
    (i : ExitInput) (h1 : firedReason cfg p i = none)
    (h2 : firedReason cfg (tick cfg p i).1 i = none) :
    tick cfg (tick cfg p i).1 i = tick cfg p i ∧
      (tick cfg p i).2 = Decision.HOLD := by
  have e1 : tick cfg p i =
      ({ p with previousPeak := updatePeak p.itype p.previousPeak i.price,
                lastDecision := Decision.HOLD }, Decision.HOLD) := by
    simp [tick, h1]
  refine ⟨?_, by rw [e1]⟩
  rw [e1] at h2 ⊢
  simp [tick, h2, updatePeak_idem]

/-- Witness for C8: a share position at entry 100 quoted at 100 with a
neutral signal fires no rule; a second identical tick reproduces the same
state and decision. -/
theorem tick_idempotent_no_event_witness :
    tick ⟨1 / 10, 1 / 10, 1 / 10, 1 / 2, 5⟩
        (tick ⟨1 / 10, 1 / 10, 1 / 10, 1 / 2, 5⟩
          ⟨InstrumentType.SHARE, 100, none, Decision.HOLD⟩
          ⟨100, none, ⟨Classification.HOLD, 0, "neutral"⟩⟩).1
        ⟨100, none, ⟨Classification.HOLD, 0, "neutral"⟩⟩ =
      tick ⟨1 / 10, 1 / 10, 1 / 10, 1 / 2, 5⟩
        ⟨InstrumentType.SHARE, 100, none, Decision.HOLD⟩
        ⟨100, none, ⟨Classification.HOLD, 0, "neutral"⟩⟩ :=
  (tick_idempotent_no_event ⟨1 / 10, 1 / 10, 1 / 10, 1 / 2, 5⟩
    ⟨InstrumentType.SHARE, 100, none, Decision.HOLD⟩
    ⟨100, none, ⟨Classification.HOLD, 0, "neutral"⟩⟩
    (by norm_num [firedReason, stopLossFires, trailingFires, expiryFires,
      adverseFires, movedAgainst, retracedFromPeak, profitableBeyond])
    (by norm_num [tick, firedReason, stopLossFires, trailingFires,
      expiryFires, adverseFires, movedAgainst, retracedFromPeak,
      profitableBeyond, updatePeak])).1

/-- C7 counterexample: the stock list the dashboard presents on first
render is not sorted by the spec's classification-priority /
confidence-descending / ticker order (a HOLD entry precedes a SELL entry),
so the presented order is not the claimed sorted order. -/
theorem dashboard_unsorted_counterexample :
    sortedByPriority mockStocks = false := by decide

/-- C7 amended: the dashboard presents signals in recency order, not sorted
order — `analyzeStock` prepends the fetched signal after dropping any
previous entry with the same ticker; the remaining entries keep their
relative order (a sublist of the previous list) and ticker-distinctness is
preserved. -/
theorem dashboard_recency_order_amended (prev : List StockData)
    (d : StockData) (hn : (prev.map StockData.ticker).Nodup) :
    analyzeStockMerge prev d =
        d :: prev.filter (fun s => !(s.ticker == d.ticker)) ∧
      (prev.filter (fun s => !(s.ticker == d.ticker))).Sublist prev ∧
      ((analyzeStockMerge prev d).map StockData.ticker).Nodup := by
  refine ⟨rfl, List.filter_sublist prev, ?_⟩
  have hsub :
      ((prev.filter (fun s => !(s.ticker == d.ticker))).map
        StockData.ticker).Sublist (prev.map StockData.ticker) :=
    (List.filter_sublist prev).map StockData.ticker
  have hnd :
      ((prev.filter (fun s => !(s.ticker == d.ticker))).map
        StockData.ticker).Nodup :=
    List.Nodup.sublist hsub hn
  simp only [analyzeStockMerge, List.map_cons]
  refine List.nodup_cons.mpr ⟨?_, hnd⟩
  intro hmem
  rcases List.mem_map.mp hmem with ⟨s, hs, hts⟩
  have hkeep := (List.mem_filter.mp hs).2
  simp [hts] at hkeep

/-- The dashboard's first mock entry. -/
def stA : StockData := ⟨"AAPL", "BUY", 1, 100, "r", 1, 1⟩

/-- A second signal with a distinct ticker. -/
def stM : StockData := ⟨"MSFT", "HOLD", 1, 50, "s", 0, 0⟩

/-- Witness for C7's amended claim at a concrete one-element list. -/
theorem dashboard_recency_order_amended_witness :
    analyzeStockMerge [stA] stM =
        stM :: [stA].filter (fun s => !(s.ticker == stM.ticker)) ∧
      ([stA].filter (fun s => !(s.ticker == stM.ticker))).Sublist [stA] ∧
      ((analyzeStockMerge [stA] stM).map StockData.ticker).Nodup :=
  dashboard_recency_order_amended [stA] stM (by decide)

/-- Replacing the first matching entry by a signal with the same ticker
leaves the list of tickers unchanged. -/
theorem replaceFirst_map_ticker (l : List Signal) (n : Signal) :
    (replaceFirst l n).map Signal.ticker = l.map Signal.ticker := by
  induction l with
  | nil => rfl
  | cons s rest ih =>
      by_cases h : (s.ticker == n.ticker) = true
      · have hst : s.ticker = n.ticker := by simpa using h
        simp [replaceFirst, h, hst]
      · simp [replaceFirst, h, ih]

/-- With pairwise-distinct tickers, replacing the first match is exactly
overwriting the matching index. -/
theorem replaceFirst_eq_set (l : List Signal) (n : Signal) (i : Fin l.length)
    (hn : (l.map Signal.ticker).Nodup) (hi : (l.get i).ticker = n.ticker) :
    replaceFirst l n = l.set i n := by
  induction l with
  | nil => exact absurd i.isLt (by simp)
  | cons s rest ih =>
      have hn0 : s.ticker ∉ rest.map Signal.ticker := by
        have h := hn
        simp only [List.map_cons, List.nodup_cons] at h
        exact h.1
      have hnrest : (rest.map Signal.ticker).Nodup := by
        have h := hn
        simp only [List.map_cons, List.nodup_cons] at h
        exact h.2
      rcases i with ⟨iv, hlt⟩
      cases iv with
      | zero =>
          have hs : (s.ticker == n.ticker) = true := by
            simpa using (hi : s.ticker = n.ticker)
          simp [replaceFirst, hs, List.set]
      | succ j =>
          have hjlt : j < rest.length := by simpa using hlt
          have hj : (rest.get ⟨j, hjlt⟩).ticker = n.ticker := hi
          have hne : (s.ticker == n.ticker) = false := by
            rw [beq_eq_false_iff_ne]
            intro heq
            refine hn0 ?_
            rw [heq, ← hj]
            exact List.mem_map_of_mem Signal.ticker (List.get_mem rest j hjlt)
          have hrest := ih ⟨j, hjlt⟩ hnrest hj
          simp [replaceFirst, hne, hrest, List.set]

/-- C9: with pairwise-distinct tickers, the dashboard's signal merge keeps
tickers distinct; an incoming ticker already present replaces that entry in
place (the rest of the list and its order unchanged), and a new ticker is
prepended with all existing entries preserved. -/
theorem signal_merge_distinct_preserving (prev : List Signal) (n : Signal)
    (hn : (prev.map Signal.ticker).Nodup) :
    ((handleSignalUpdate prev n).map Signal.ticker).Nodup ∧
      (∀ i : Fin prev.length, (prev.get i).ticker = n.ticker →
        handleSignalUpdate prev n = prev.set i n) ∧
      (n.ticker ∉ prev.map Signal.ticker →
        handleSignalUpdate prev n = n :: prev) := by
  refine ⟨?_, ?_, ?_⟩
  · by_cases ha : prev.any (fun s => s.ticker == n.ticker) = true
    · rw [handleSignalUpdate, if_pos ha, replaceFirst_map_ticker]
      exact hn
    · rw [handleSignalUpdate, if_neg ha]
      simp only [List.map_cons]
      refine List.nodup_cons.mpr ⟨?_, hn⟩
      intro hmem
      rcases List.mem_map.mp hmem with ⟨s, hs, hts⟩
      exact ha (List.any_eq_true.mpr ⟨s, hs, by simp [hts]⟩)
  · intro i hi
    have ha : prev.any (fun s => s.ticker == n.ticker) = true :=
      List.any_eq_true.mpr ⟨prev.get i, List.get_mem prev i.1 i.2,
        by simp only [beq_iff_eq]; exact hi⟩
    rw [handleSignalUpdate, if_pos ha]
    exact replaceFirst_eq_set prev n i hn hi
  · intro hmem
    have ha : ¬prev.any (fun s => s.ticker == n.ticker) = true := by
      intro h
      rcases List.any_eq_true.mp h with ⟨s, hs, hbeq⟩
      have : s.ticker = n.ticker := by simpa using hbeq
      exact hmem (this ▸ List.mem_map.mpr ⟨s, hs, rfl⟩)
    rw [handleSignalUpdate, if_neg ha]

/-- An existing signal entry for the witness. -/
def sigA : Signal := ⟨"AAPL", "BUY", 1, none, "r"⟩

/-- An incoming signal with a fresh ticker for the witness. -/
def sigM : Signal := ⟨"MSFT", "HOLD", 1, none, "s"⟩

/-- Witness for C9: merging a fresh-ticker signal into a one-entry list
keeps tickers distinct and prepends the new signal. -/
theorem signal_merge_distinct_preserving_witness :
    ((handleSignalUpdate [sigA] sigM).map Signal.ticker).Nodup ∧
      handleSignalUpdate [sigA] sigM = sigM :: [sigA] :=
  ⟨(signal_merge_distinct_preserving [sigA] sigM (by decide)).1,
   (signal_merge_distinct_preserving [sigA] sigM (by decide)).2.2 (by decide)⟩

end StockRec
